import Mathlib

/-!
Shallow embedding of the neural-echo text-to-structure pipeline
(src/ai/SentimentAnalyzer.ts: classes SentimentAnalyzer, TextAnalyzer,
ComplexityAnalyzer; src/rendering/NodeSystem.ts: class NodeSystem;
src/types/index.ts: SCALING_THRESHOLDS), together with proofs of the
frozen claims about it.

Modelling conventions:
- JavaScript numbers are modelled as exact rationals (and as reals where
  Math.log2 is involved).  Where the source can hit IEEE NaN (the 0/0
  division in ComplexityAnalyzer.calculateEmotionalComplexity on an empty
  word list) the affected values are modelled as Option values, none
  standing for NaN, with NaN-propagating arithmetic mirroring IEEE and
  the JS Math.min/Math.max NaN behaviour.
- Math.random() is replaced by injected deterministic value streams (the
  repository design notes call for a seedable random source); randomness
  only feeds node id suffixes and cosmetic node attributes, never counts.
- JS strings are modelled through their character lists; the inputs used
  in concrete theorems are ASCII, where Char.toLower and charCodeAt agree
  with their JS counterparts.
-/

/-- The six emotion dimensions of EmotionScores (src/types). -/
inductive Emotion
  | joy | sadness | anger | fear | surprise | anticipation
  deriving DecidableEq, Repr

open Emotion

/-- The key list of the EmotionScores object, in JS property order. -/
def emotionKeys : List Emotion := [joy, sadness, anger, fear, surprise, anticipation]

/-- EmotionScores is a JS object with six numeric fields; modelled as a
function from the key type. -/
def EmotionScores := Emotion → ℚ

/-- scores[e] += d on the JS object. -/
def bumpScore (f : EmotionScores) (e : Emotion) (d : ℚ) : EmotionScores :=
  fun x => if x = e then f x + d else f x

/-- JS whitespace (the \s class restricted to the characters our inputs use). -/
def isSpaceJS (c : Char) : Bool :=
  c = ' ' || c = '\t' || c = '\n' || c = '\r'

/-- The JS regex class \w = [A-Za-z0-9_]. -/
def isWordCharJS (c : Char) : Bool :=
  c.isAlpha || c.isDigit || c = '_'

/-- Maximal runs of characters not satisfying isSep; models
String.split on a separator class followed by filtering empty pieces. -/
def splitRunsAux (isSep : Char → Bool) : List Char → List Char → List (List Char)
  | [], acc => if acc = [] then [] else [acc.reverse]
  | c :: rest, acc =>
    if isSep c then
      (if acc = [] then splitRunsAux isSep rest []
       else acc.reverse :: splitRunsAux isSep rest [])
    else splitRunsAux isSep rest (c :: acc)

def splitRuns (isSep : Char → Bool) (cs : List Char) : List (List Char) :=
  splitRunsAux isSep cs []

namespace SentimentAnalyzer

/-- SentimentAnalyzer.tokenizeText: lower-case, replace [^\w\s] by a
space, split on \s+, drop empty tokens. -/
def tokenizeText (text : String) : List String :=
  let lowered := text.data.map Char.toLower
  let replaced := lowered.map (fun c => if isWordCharJS c || isSpaceJS c then c else ' ')
  (splitRuns isSpaceJS replaced).map (fun cs => String.mk cs)

/-- Joy lexicon words (intensity 0.8). -/
def joyWords : List String :=
  ["happy", "joy", "excited", "wonderful", "amazing", "brilliant", "delighted", "ecstatic",
   "joyful", "cheerful", "elated", "euphoric", "blissful", "content", "pleased", "satisfied",
   "thrilled", "overjoyed", "gleeful", "merry", "upbeat", "optimistic", "positive", "bright",
   "fantastic", "great", "excellent", "perfect", "beautiful", "love", "adore", "celebrate",
   "triumph", "victory", "success", "achievement", "accomplishment", "pride", "confident",
   "hope", "hopeful", "inspiring", "motivated", "energetic", "vibrant", "alive"]

/-- Sadness lexicon words (intensity 0.8). -/
def sadnessWords : List String :=
  ["sad", "depressed", "gloomy", "melancholy", "disappointed", "sorrowful", "grief",
   "heartbroken", "devastated", "dejected", "despondent", "downhearted", "miserable",
   "unhappy", "blue", "down", "low", "morose", "mournful", "woeful", "tearful",
   "crying", "weeping", "sobbing", "lonely", "isolated", "abandoned", "lost",
   "hopeless", "helpless", "despair", "anguish", "pain", "hurt", "suffering",
   "regret", "remorse", "guilt", "shame", "burden", "heavy", "dark"]

/-- Anger lexicon words (intensity 0.8). -/
def angerWords : List String :=
  ["angry", "furious", "rage", "hostile", "irritated", "annoyed", "outraged",
   "mad", "livid", "enraged", "irate", "incensed", "wrathful", "fuming",
   "aggravated", "frustrated", "exasperated", "indignant", "resentful", "bitter",
   "hatred", "hate", "loathe", "despise", "disgusted", "revolted", "appalled",
   "offended", "insulted", "provoked", "triggered", "agitated", "upset",
   "pissed", "ticked", "steamed", "boiling", "seething", "explosive"]

/-- Fear lexicon words (intensity 0.8). -/
def fearWords : List String :=
  ["afraid", "terrified", "anxious", "worried", "nervous", "scared", "frightened",
   "fearful", "panicked", "horrified", "petrified", "trembling", "shaking",
   "paranoid", "concerned", "uneasy", "apprehensive", "dreadful", "ominous",
   "threatening", "dangerous", "risky", "uncertain", "insecure", "vulnerable",
   "stressed", "tense", "overwhelmed", "panic", "terror", "horror", "nightmare",
   "phobia", "anxiety", "stress", "pressure", "burden", "threat"]

/-- Surprise lexicon words (intensity 0.7). -/
def surpriseWords : List String :=
  ["surprised", "shocked", "astonished", "amazed", "stunned", "startled",
   "bewildered", "perplexed", "confused", "puzzled", "baffled", "mystified",
   "unexpected", "sudden", "abrupt", "unforeseen", "remarkable", "extraordinary",
   "incredible", "unbelievable", "astounding", "mind-blowing", "wow", "whoa",
   "gasped", "speechless", "thunderstruck", "flabbergasted", "dumbfounded"]

/-- Anticipation lexicon words (intensity 0.6). -/
def anticipationWords : List String :=
  ["excited", "eager", "hopeful", "optimistic", "expecting", "anticipating",
   "looking forward", "awaiting", "prepared", "ready", "planning", "future",
   "tomorrow", "soon", "upcoming", "approaching", "imminent", "pending",
   "prospect", "possibility", "potential", "opportunity", "chance", "maybe",
   "curious", "interested", "intrigued", "wondering", "expectant"]

/-- The emotion lexicon Map: entries are inserted joy, sadness, anger,
fear, surprise, anticipation, with Map.set overwriting earlier emotions
for duplicated words; lookup therefore checks the later lists first. -/
def emotionLexicon (w : String) : Option (Emotion × ℚ) :=
  if w ∈ anticipationWords then some (anticipation, 0.6)
  else if w ∈ surpriseWords then some (surprise, 0.7)
  else if w ∈ fearWords then some (fear, 0.8)
  else if w ∈ angerWords then some (anger, 0.8)
  else if w ∈ sadnessWords then some (sadness, 0.8)
  else if w ∈ joyWords then some (joy, 0.8)
  else none

/-- Negation word set. -/
def negationWords : List String :=
  ["not", "no", "never", "none", "nothing", "nobody", "nowhere",
   "neither", "nor", "without", "barely", "hardly", "scarcely", "seldom"]

/-- Intensifier word -> multiplier Map. -/
def intensifierPairs : List (String × ℚ) :=
  [("very", 1.5), ("extremely", 2.0), ("incredibly", 1.8), ("absolutely", 1.7),
   ("completely", 1.6), ("totally", 1.5), ("really", 1.3), ("quite", 1.2),
   ("rather", 1.1), ("somewhat", 0.8), ("slightly", 0.6), ("barely", 0.4),
   ("utterly", 1.9), ("exceptionally", 1.8), ("remarkably", 1.6), ("particularly", 1.4)]

def intensifierLookup (w : String) : Option ℚ :=
  intensifierPairs.lookup w

/-- Scan state of calculateEmotionScores: accumulated sums, the count of
emotional words, the pending-negation flag, the current intensifier. -/
structure ScanState where
  scores : EmotionScores
  total : ℕ
  negation : Bool
  intens : ℚ

def initState : ScanState := ⟨fun _ => 0, 0, false, 1⟩

/-- One loop iteration of calculateEmotionScores.  Negation and
intensifier words hit continue, so they skip the end-of-loop intensifier
reset; any other word resets the intensifier to 1. -/
def scanStep (s : ScanState) (w : String) : ScanState :=
  if w ∈ negationWords then { s with negation := true }
  else
    match intensifierLookup w with
    | some m => { s with intens := m }
    | none =>
      match emotionLexicon w with
      | some (e, base) =>
        let contribution := base * s.intens
        let contribution := if s.negation then contribution * (-0.5) else contribution
        { scores := bumpScore s.scores e contribution
          total := s.total + 1
          negation := false
          intens := 1 }
      | none => { s with intens := 1 }

/-- SentimentAnalyzer.calculateEmotionScores: scan, then if any emotional
word was seen divide each dimension by the emotional-word count and floor
at 0; otherwise the (all-zero) sums are returned unchanged. -/
def calculateEmotionScores (words : List String) : EmotionScores :=
  let st := words.foldl scanStep initState
  if st.total > 0 then fun e => max 0 (st.scores e / st.total) else st.scores

/-- DominantEmotion record. -/
structure DominantEmotion where
  emotion : Emotion
  score : ℚ
  confidence : ℚ
  deriving DecidableEq, Repr

/-- SentimentAnalyzer.findDominantEmotion: strict-max scan starting from
(0, joy), then confidence from the two largest scores; the JS expression
sortedScores[0] || 1 replaces a zero top score by 1. -/
def findDominantEmotion (scores : EmotionScores) : DominantEmotion :=
  let pick := emotionKeys.foldl
    (fun acc e => if scores e > acc.1 then (scores e, e) else acc) ((0 : ℚ), joy)
  let values := emotionKeys.map scores
  let sorted := values.insertionSort (· ≥ ·)
  let top := sorted.getD 0 0
  let second := sorted.getD 1 0
  let confidence := if sorted.length > 1 then (top - second) / (if top = 0 then 1 else top) else 1
  { emotion := pick.2, score := pick.1, confidence := min 1 confidence }

/-- SentimentAnalyzer.calculateDimensions. -/
def calculateDimensions (scores : EmotionScores) : ℚ × ℚ :=
  let positive := scores joy + scores anticipation + scores surprise * 0.5
  let negative := scores sadness + scores anger + scores fear
  let valence := (positive - negative) / max (positive + negative) 1
  let highArousal := scores anger + scores fear + scores surprise + scores joy * 0.7
  let lowArousal := scores sadness + scores anticipation * 0.3
  let arousal := highArousal / max (highArousal + lowArousal) 1
  (max (-1) (min 1 valence), max 0 (min 1 arousal))

/-- SentimentAnalyzer.calculateIntensity. -/
def calculateIntensity (scores : EmotionScores) (dominant : DominantEmotion) : ℚ :=
  let totalEmotionalContent := (emotionKeys.map scores).sum
  let dominantWeight := dominant.score * 2
  min 1 ((totalEmotionalContent + dominantWeight) / 3)

/-- SentimentAnalyzer.applyEmojiInfluence: positive influence nudges joy
and anticipation, negative influence nudges sadness and fear, each capped
at 1.  (The analyze entry point only ever reaches the positive branch.) -/
def applyEmojiInfluence (scores : EmotionScores) (influence : ℚ) : EmotionScores :=
  if influence > 0 then
    fun e =>
      match e with
      | joy => min 1 (scores joy + influence * 0.3)
      | anticipation => min 1 (scores anticipation + influence * 0.2)
      | x => scores x
  else if influence < 0 then
    fun e =>
      match e with
      | sadness => min 1 (scores sadness + |influence| * 0.3)
      | fear => min 1 (scores fear + |influence| * 0.2)
      | x => scores x
  else scores

/-- The SentimentAnalysis result record. -/
structure SentimentAnalysis where
  scores : EmotionScores
  dominant : DominantEmotion
  intensity : ℚ
  valence : ℚ
  arousal : ℚ

/-- SentimentAnalyzer.analyze.  The emoji influence is only applied when
it is strictly positive (the if (emojiInfluence > 0) guard). -/
def analyze (text : String) (emojiInfluence : ℚ) : SentimentAnalysis :=
  let words := tokenizeText text
  let emotionScores := calculateEmotionScores words
  let emotionScores :=
    if emojiInfluence > 0 then applyEmojiInfluence emotionScores emojiInfluence
    else emotionScores
  let dominant := findDominantEmotion emotionScores
  let dims := calculateDimensions emotionScores
  let intensity := calculateIntensity emotionScores dominant
  { scores := emotionScores, dominant := dominant, intensity := intensity
    valence := dims.1, arousal := dims.2 }

end SentimentAnalyzer

/-!
NaN-aware arithmetic.  JS numbers are IEEE doubles; the one reachable NaN
source in the pipeline is the 0/0 in
ComplexityAnalyzer.calculateEmotionalComplexity when the word list is
empty.  none models NaN; +, *, Math.min and Math.max all propagate NaN.
-/

def jadd {α : Type} [Add α] (x y : Option α) : Option α :=
  x.bind (fun a => y.map (fun b => a + b))

def jmul {α : Type} [Mul α] (x y : Option α) : Option α :=
  x.bind (fun a => y.map (fun b => a * b))

def jminQ {α : Type} [Min α] (x y : Option α) : Option α :=
  x.bind (fun a => y.map (fun b => min a b))

def jmaxQ {α : Type} [Max α] (x y : Option α) : Option α :=
  x.bind (fun a => y.map (fun b => max a b))

/-- Division of two JS numbers in the contexts where this pipeline can
divide by zero: there the numerator is a sub-count of the denominator
count, so a zero denominator forces a zero numerator and the result is
0/0 = NaN (never Infinity). -/
def jdiv (x y : ℚ) : Option ℚ := if y = 0 then none else some (x / y)

/-- Contiguous-sublist test (structural, kernel-reducible). -/
def infixTest (pat : List Char) : List Char → Bool
  | [] => pat.isPrefixOf []
  | c :: rest => pat.isPrefixOf (c :: rest) || infixTest pat rest

/-- word.includes(sub) for JS strings. -/
def strContainsJS (w sub : String) : Bool := infixTest sub.data w.data

/-- word.endsWith(suffix) for JS strings. -/
def endsWithJS (w s : String) : Bool := List.isSuffixOf s.data w.data

/-- text.toLowerCase() for JS strings (ASCII inputs). -/
def toLowerStr (s : String) : String := String.mk (s.data.map Char.toLower)

/-- String.trim for JS strings. -/
def trimJS (cs : List Char) : List Char :=
  ((cs.dropWhile (fun c => isSpaceJS c)).reverse.dropWhile (fun c => isSpaceJS c)).reverse

/-- Fuel-indexed helper for countOccurs (fuel bounds the text length, so
the recursion is structural and kernel-reducible). -/
def countOccursAux : ℕ → List Char → List Char → ℕ
  | 0, _, _ => 0
  | _ + 1, _, [] => 0
  | fuel + 1, pat, c :: rest =>
    if pat ≠ [] ∧ pat.isPrefixOf (c :: rest) then
      1 + countOccursAux fuel pat ((c :: rest).drop pat.length)
    else
      countOccursAux fuel pat rest

/-- Number of non-overlapping left-to-right occurrences of pat in text:
the JS idiom text.split(pat).length - 1. -/
def countOccurs (pat text : List Char) : ℕ := countOccursAux text.length pat text

namespace ComplexityAnalyzer

/-- ComplexityAnalyzer.tokenizeText (same body as the sentiment one). -/
def tokenizeText (text : String) : List String :=
  let lowered := text.data.map Char.toLower
  let replaced := lowered.map (fun c => if isWordCharJS c || isSpaceJS c then c else ' ')
  (splitRuns isSpaceJS replaced).map (fun cs => String.mk cs)

/-- ComplexityAnalyzer.splitIntoSentences: split on runs of [.!?], trim
each piece, drop empties. -/
def splitIntoSentences (text : String) : List String :=
  (((splitRuns (fun c => c = '.' || c = '!' || c = '?') text.data).map trimJS).filter
    (fun cs => cs ≠ [])).map (fun cs => String.mk cs)

/-- The common-word list (duplicates are harmless: it models a JS Set,
only membership is ever used). -/
def commonWords : List String :=
  ["the", "a", "to", "and", "of", "in", "i", "you", "it", "have", "be", "on", "for", "do", "say",
   "this", "they", "is", "an", "at", "but", "we", "his", "from", "that", "not", "by", "she", "or",
   "as", "what", "go", "their", "can", "who", "get", "if", "would", "her", "all", "my", "make",
   "about", "know", "will", "as", "up", "one", "time", "has", "been", "there", "year", "so",
   "think", "when", "which", "them", "some", "me", "people", "take", "out", "into", "just", "see",
   "him", "your", "come", "could", "now", "than", "like", "other", "how", "then", "its", "our",
   "two", "more", "these", "want", "way", "look", "first", "also", "new", "because", "day", "more",
   "use", "no", "man", "find", "here", "thing", "give", "many", "well", "only", "those", "tell",
   "very", "her", "even", "back", "any", "good", "woman", "through", "us", "life", "child", "work",
   "down", "may", "after", "should", "call", "world", "over", "school", "still", "try", "in", "as",
   "last", "ask", "need", "too", "feel", "three", "when", "state", "never", "become", "between",
   "high", "really", "something", "most", "another", "much", "family", "own", "out", "leave"]

/-- The complex/sophisticated word list. -/
def complexWords : List String :=
  ["sophisticated", "implementation", "consideration", "fundamental", "comprehensive", "significance",
   "extraordinary", "revolutionary", "unprecedented", "phenomenal", "magnificent", "consequently",
   "nevertheless", "furthermore", "elaborate", "intricate", "meticulous", "substantial", "considerable",
   "remarkable", "exceptional", "outstanding", "distinguished", "prominent", "inevitable", "essential",
   "critical", "crucial", "significant", "substantial", "extensive", "comprehensive", "thorough",
   "elaborate", "sophisticated", "advanced", "complex", "intricate", "detailed", "specific",
   "particular", "individual", "unique", "distinct", "separate", "independent", "autonomous",
   "contemporary", "modern", "current", "recent", "latest", "updated", "revised", "modified",
   "alternative", "optional", "additional", "supplementary", "complementary", "corresponding",
   "equivalent", "similar", "comparable", "analogous", "parallel", "related", "associated",
   "connected", "linked", "attached", "combined", "integrated", "unified", "consolidated"]

/-- ComplexityAnalyzer.calculateVocabularyDiversity. -/
def calculateVocabularyDiversity (words : List String) : ℚ :=
  if words.length = 0 then 0
  else
    let uniqueWords := words.dedup
    let ttr : ℚ := (uniqueWords.length : ℚ) / words.length
    let sophisticatedCount := uniqueWords.countP
      (fun w => complexWords.contains w || w.length > 8)
    let commonCount := uniqueWords.countP
      (fun w => !(complexWords.contains w || w.length > 8) && commonWords.contains w)
    let sophFrac : ℚ := (sophisticatedCount : ℚ) / uniqueWords.length
    let commonFrac : ℚ := (commonCount : ℚ) / uniqueWords.length
    let diversityScore := ttr * 0.6 + sophFrac * 0.3 + (1 - commonFrac) * 0.1
    min 1 (diversityScore * 2)

/-- Subordinate-clause indicator words. -/
def subordinateIndicators : List String :=
  ["because", "since", "although", "while", "whereas", "if", "unless", "until",
   "before", "after", "when", "where", "which", "that", "who", "whom"]

/-- Per-sentence complexity blend of calculateSentenceComplexity. -/
def sentenceScore (sentence : String) : ℚ :=
  let sentenceWords := splitRuns isSpaceJS sentence.data
  let wordCount := sentenceWords.length
  let lengthComplexity : ℚ :=
    if wordCount ≤ 10 then 0.2
    else if wordCount ≤ 20 then 0.5
    else if wordCount ≤ 30 then 0.8
    else 1.0
  let commaCount := sentence.data.countP (fun c => c = ',')
  let semicolonCount := sentence.data.countP (fun c => c = ';')
  let colonCount := sentence.data.countP (fun c => c = ':')
  let punctuationComplexity : ℚ :=
    min 1 ((commaCount : ℚ) * 0.1 + (semicolonCount : ℚ) * 0.2 + (colonCount : ℚ) * 0.15)
  let subordinateCount := (subordinateIndicators.map
    (fun ind => countOccurs ind.data (toLowerStr sentence).data)).sum
  let subordinateComplexity : ℚ := min 1 ((subordinateCount : ℚ) * 0.3)
  lengthComplexity * 0.4 + punctuationComplexity * 0.3 + subordinateComplexity * 0.3

/-- ComplexityAnalyzer.calculateSentenceComplexity. -/
def calculateSentenceComplexity (sentences : List String) : ℚ :=
  if sentences.length = 0 then 0
  else ((sentences.map sentenceScore).sum) / sentences.length

/-- Abstract concept indicator substrings. -/
def abstractIndicators : List String :=
  ["concept", "idea", "theory", "principle", "philosophy", "belief", "thought", "notion",
   "understanding", "knowledge", "wisdom", "meaning", "purpose", "significance", "importance",
   "value", "quality", "characteristic", "nature", "essence", "reality", "truth", "fact",
   "assumption", "hypothesis", "conclusion", "inference", "implication", "consequence"]

/-- Technical indicator substrings. -/
def technicalIndicators : List String :=
  ["system", "process", "method", "approach", "technique", "procedure", "mechanism",
   "function", "operation", "performance", "efficiency", "optimization", "analysis",
   "evaluation", "assessment", "measurement", "calculation", "computation", "algorithm",
   "structure", "framework", "architecture", "design", "implementation", "development"]

/-- ComplexityAnalyzer.calculateConceptDensity. -/
def calculateConceptDensity (words : List String) : ℚ :=
  if words.length = 0 then 0
  else
    let abstractConcepts := words.countP (fun w =>
      abstractIndicators.any (fun ind => strContainsJS w ind) ||
      endsWithJS w "ness" || endsWithJS w "ity" || endsWithJS w "ism")
    let technicalTerms := words.countP (fun w =>
      technicalIndicators.any (fun ind => strContainsJS w ind) ||
      endsWithJS w "tion" || endsWithJS w "sion" || endsWithJS w "ment")
    let actionWords := words.countP (fun w =>
      endsWithJS w "ing" || endsWithJS w "ed" || endsWithJS w "en")
    let descriptiveWords := words.countP (fun w =>
      endsWithJS w "ly" || endsWithJS w "ful" || endsWithJS w "less" ||
      endsWithJS w "ous" || endsWithJS w "ive" || endsWithJS w "able")
    let weightedDensity : ℚ :=
      (abstractConcepts : ℚ) / words.length * 0.4 +
      (technicalTerms : ℚ) / words.length * 0.3 +
      (actionWords : ℚ) / words.length * 0.2 +
      (descriptiveWords : ℚ) / words.length * 0.1
    min 1 (weightedDensity * 3)

/-- Simple emotional indicator words. -/
def emotionWords : List String :=
  ["happy", "sad", "angry", "fear", "joy", "love", "hate", "excited", "nervous",
   "calm", "stressed", "peaceful", "worried", "confident", "anxious", "hopeful",
   "disappointed", "frustrated", "content", "lonely", "grateful", "proud",
   "embarrassed", "ashamed", "guilty", "relieved", "surprised", "shocked",
   "amazed", "confused", "curious", "interested", "bored", "tired", "energetic"]

/-- Complex emotion words. -/
def complexEmotions : List String :=
  ["melancholy", "euphoric", "despondent", "elated", "apprehensive", "contemplative",
   "nostalgic", "bittersweet", "ambivalent", "conflicted", "overwhelmed", "underwhelmed",
   "disillusioned", "enlightened", "empowered", "vulnerable", "resilient", "determined"]

/-- Emotional intensity words. -/
def intensifiers : List String :=
  ["extremely", "incredibly", "absolutely", "completely", "utterly", "deeply",
   "profoundly", "intensely", "overwhelmingly", "exceptionally", "remarkably"]

/-- Emotional nuance marker phrases. -/
def nuanceIndicators : List String :=
  ["but", "however", "although", "despite", "nevertheless", "yet", "still",
   "on the other hand", "at the same time", "mixed feelings", "torn between"]

/-- ComplexityAnalyzer.calculateEmotionalComplexity.  Unlike its three
sibling sub-scores this function has no empty-word-list guard: on an
empty word list every division is 0/0, i.e. NaN (hence Option ℚ). -/
def calculateEmotionalComplexity (text : String) (words : List String) : Option ℚ :=
  let simpleEmotions := words.countP (fun w => emotionWords.contains w)
  let complexEmotionCount := words.countP (fun w => complexEmotions.contains w)
  let intensifierCount := words.countP (fun w => intensifiers.contains w)
  let emotionalNuance : ℚ := nuanceIndicators.foldl
    (fun acc ind => if strContainsJS (toLowerStr text) ind then acc + 0.2 else acc) 0
  let totalEmotionalWords := simpleEmotions + complexEmotionCount
  let emotionalDensity := jdiv (totalEmotionalWords : ℚ) (words.length : ℚ)
  let complexityScore :=
    jadd (jadd (jadd (jmul emotionalDensity (some 0.3))
                     (jmul (jdiv (complexEmotionCount : ℚ) (words.length : ℚ)) (some 0.4)))
               (jmul (jdiv (intensifierCount : ℚ) (words.length : ℚ)) (some 0.2)))
         (some (min 1 emotionalNuance * 0.1))
  jminQ (some 1) (jmul complexityScore (some 4))

/-- The ComplexityAnalysis result record; the two fields that can be NaN
are Option-valued. -/
structure ComplexityAnalysis where
  overallComplexity : Option ℚ
  vocabularyDiversity : ℚ
  sentenceComplexity : ℚ
  conceptDensity : ℚ
  emotionalComplexity : Option ℚ

/-- ComplexityAnalyzer.analyze: the 0.3/0.3/0.25/0.15 weighted blend,
capped at 1. -/
def analyze (text : String) : ComplexityAnalysis :=
  let words := tokenizeText text
  let sentences := splitIntoSentences text
  let vocabularyDiversity := calculateVocabularyDiversity words
  let sentenceComplexity := calculateSentenceComplexity sentences
  let conceptDensity := calculateConceptDensity words
  let emotionalComplexity := calculateEmotionalComplexity text words
  let overallComplexity :=
    jadd (some (vocabularyDiversity * 0.3 + sentenceComplexity * 0.3 + conceptDensity * 0.25))
         (jmul emotionalComplexity (some 0.15))
  { overallComplexity := jminQ (some 1) overallComplexity
    vocabularyDiversity := vocabularyDiversity
    sentenceComplexity := sentenceComplexity
    conceptDensity := conceptDensity
    emotionalComplexity := emotionalComplexity }

end ComplexityAnalyzer

/-!
TextAnalyzer (src/ai, second class in the file) and the scaling tier
table SCALING_THRESHOLDS (src/types/index.ts).
-/

/-- The 17 scaling strategy names (ScalingType in src/types). -/
inductive ScalingType
  | micro_boost | micro_enhance | micro_standard
  | small_plus | small_standard | small_compress
  | medium_standard | medium_compress | medium_max
  | large_standard | large_compress | large_heavy
  | massive_standard | massive_compress | massive_max
  | epic_standard | epic_maximum
  deriving DecidableEq, Repr

/-- One entry of SCALING_THRESHOLDS. -/
structure Threshold where
  min : ℕ
  max : ℕ
  strategy : ScalingType
  multiplier : ℚ
  deriving DecidableEq, Repr

def MICRO_TINY : Threshold := ⟨1, 3, ScalingType.micro_boost, 3.0⟩
def MICRO_SMALL : Threshold := ⟨4, 8, ScalingType.micro_enhance, 2.2⟩
def MICRO_MEDIUM : Threshold := ⟨9, 15, ScalingType.micro_standard, 1.8⟩
def SMALL_LIGHT : Threshold := ⟨16, 30, ScalingType.small_plus, 1.5⟩
def SMALL_MEDIUM : Threshold := ⟨31, 60, ScalingType.small_standard, 1.2⟩
def SMALL_HEAVY : Threshold := ⟨61, 100, ScalingType.small_compress, 1.0⟩
def MEDIUM_LIGHT : Threshold := ⟨101, 200, ScalingType.medium_standard, 0.95⟩
def MEDIUM_HEAVY : Threshold := ⟨201, 350, ScalingType.medium_compress, 0.85⟩
def MEDIUM_MAX : Threshold := ⟨351, 500, ScalingType.medium_max, 0.75⟩
def LARGE_LIGHT : Threshold := ⟨501, 800, ScalingType.large_standard, 0.7⟩
def LARGE_MEDIUM : Threshold := ⟨801, 1200, ScalingType.large_compress, 0.6⟩
def LARGE_HEAVY : Threshold := ⟨1201, 2000, ScalingType.large_heavy, 0.5⟩
def MASSIVE_LIGHT : Threshold := ⟨2001, 3500, ScalingType.massive_standard, 0.45⟩
def MASSIVE_HEAVY : Threshold := ⟨3501, 5000, ScalingType.massive_compress, 0.4⟩
def MASSIVE_MAX : Threshold := ⟨5001, 7000, ScalingType.massive_max, 0.35⟩
def EPIC_STANDARD : Threshold := ⟨7001, 10000, ScalingType.epic_standard, 0.3⟩
def EPIC_MAX : Threshold := ⟨10001, 12500, ScalingType.epic_maximum, 0.25⟩

/-- SCALING_THRESHOLDS in object-literal (Object.entries) order. -/
def SCALING_THRESHOLDS : List Threshold :=
  [MICRO_TINY, MICRO_SMALL, MICRO_MEDIUM,
   SMALL_LIGHT, SMALL_MEDIUM, SMALL_HEAVY,
   MEDIUM_LIGHT, MEDIUM_HEAVY, MEDIUM_MAX,
   LARGE_LIGHT, LARGE_MEDIUM, LARGE_HEAVY,
   MASSIVE_LIGHT, MASSIVE_HEAVY, MASSIVE_MAX,
   EPIC_STANDARD, EPIC_MAX]

namespace TextAnalyzer

/-- TextAnalyzer.tokenizeText: trim, split on \s+, drop empty tokens. -/
def tokenizeText (text : String) : List String :=
  (splitRuns isSpaceJS text.data).map (fun cs => String.mk cs)

/-- The threshold-selection loop of determineScalingStrategy: the first
table entry whose [min, max] range contains the word count; the loop
variable is initialised to (and so falls back to) MICRO_TINY. -/
def selectThreshold (wordCount : ℕ) : Threshold :=
  (SCALING_THRESHOLDS.find? (fun t => decide (t.min ≤ wordCount) && decide (wordCount ≤ t.max))).getD
    MICRO_TINY

/-- The strategy-multiplier lookup table inside calculateBaseNodeCount. -/
def strategyMultipliers : ScalingType → ℚ
  | ScalingType.micro_boost => 3.0
  | ScalingType.micro_enhance => 2.2
  | ScalingType.micro_standard => 1.8
  | ScalingType.small_plus => 1.5
  | ScalingType.small_standard => 1.2
  | ScalingType.small_compress => 1.0
  | ScalingType.medium_standard => 0.95
  | ScalingType.medium_compress => 0.85
  | ScalingType.medium_max => 0.75
  | ScalingType.large_standard => 0.7
  | ScalingType.large_compress => 0.6
  | ScalingType.large_heavy => 0.5
  | ScalingType.massive_standard => 0.45
  | ScalingType.massive_compress => 0.4
  | ScalingType.massive_max => 0.35
  | ScalingType.epic_standard => 0.3
  | ScalingType.epic_maximum => 0.25

/-- The pre-clamp node-count product of calculateBaseNodeCount:
log2(W+1) * 8 * complexityBonus * emotionalBonus * strategyMultiplier. -/
noncomputable def rawNodeCount (wordCount : ℕ) (overallComplexity emotionIntensity : ℝ)
    (strategy : ScalingType) : ℝ :=
  Real.logb 2 (wordCount + 1) * 8 * (1 + overallComplexity * 1.5) *
    (0.5 + emotionIntensity * 1.5) * ((strategyMultipliers strategy : ℚ) : ℝ)

/-- TextAnalyzer.calculateBaseNodeCount:
Math.floor(Math.max(8, Math.min(700, raw))). -/
noncomputable def calculateBaseNodeCount (wordCount : ℕ)
    (overallComplexity emotionIntensity : ℝ) (strategy : ScalingType) : ℤ :=
  ⌊max 8 (min 700 (rawNodeCount wordCount overallComplexity emotionIntensity strategy))⌋

/-- NaN-aware variant of calculateBaseNodeCount, for the pipeline path on
which overallComplexity is IEEE NaN (Math.min, Math.max and Math.floor
all map NaN to NaN). -/
noncomputable def jsCalculateBaseNodeCount (wordCount : ℕ) (overallComplexity : Option ℝ)
    (emotionIntensity : ℝ) (strategy : ScalingType) : Option ℤ :=
  let baseNodes : ℝ := Real.logb 2 (wordCount + 1) * 8
  let complexityBonus := jadd (some 1) (jmul overallComplexity (some (1.5 : ℝ)))
  let emotionalBonus : ℝ := 0.5 + emotionIntensity * 1.5
  let raw := jmul (jmul (jmul (some baseNodes) complexityBonus) (some emotionalBonus))
    (some ((strategyMultipliers strategy : ℚ) : ℝ))
  (jmaxQ (some 8) (jminQ (some 700) raw)).map (fun r => ⌊r⌋)

/-- The strategy-based particle multiplier table of calculateParticleCount. -/
def strategyParticleMultipliers : ScalingType → ℚ
  | ScalingType.micro_boost => 1.2
  | ScalingType.micro_enhance => 1.1
  | ScalingType.micro_standard => 1.0
  | ScalingType.small_plus => 1.0
  | ScalingType.small_standard => 1.0
  | ScalingType.small_compress => 0.95
  | ScalingType.medium_standard => 0.9
  | ScalingType.medium_compress => 0.85
  | ScalingType.medium_max => 0.8
  | ScalingType.large_standard => 0.75
  | ScalingType.large_compress => 0.7
  | ScalingType.large_heavy => 0.65
  | ScalingType.massive_standard => 0.6
  | ScalingType.massive_compress => 0.55
  | ScalingType.massive_max => 0.5
  | ScalingType.epic_standard => 0.45
  | ScalingType.epic_maximum => 0.4

/-- TextAnalyzer.calculateParticleCount: tiered particles-per-node,
strategy multiplier, floor, then clamp to [500, 35000] via
Math.min(35000, Math.max(500, _)). -/
def calculateParticleCount (nodeCount : ℤ) (strategy : ScalingType) : ℤ :=
  let particlesPerNode : ℤ :=
    if nodeCount ≤ 100 then 75
    else if nodeCount ≤ 300 then 60
    else if nodeCount ≤ 500 then 50
    else 40
  let baseParticleCount := nodeCount * particlesPerNode
  let finalParticleCount := ⌊(baseParticleCount : ℚ) * strategyParticleMultipliers strategy⌋
  min 35000 (max 500 finalParticleCount)

/-- TextAnalyzer.calculateCompressionLevel. -/
noncomputable def calculateCompressionLevel (originalWordCount : ℕ) (finalNodeCount : ℤ) : ℝ :=
  if originalWordCount ≤ 50 then
    max 0 ((50 - (finalNodeCount : ℝ)) / 50)
  else
    let idealNodeCount : ℝ := min 100 ((originalWordCount : ℝ) * 0.5)
    max 0 (min 1 (1 - (finalNodeCount : ℝ) / idealNodeCount))

/-- The ScalingStrategy record returned by determineScalingStrategy. -/
structure ScalingStrategy where
  type : ScalingType
  multiplier : ℚ
  nodeCount : ℤ
  particleCount : ℤ
  compressionLevel : ℝ

/-- TextAnalyzer.determineScalingStrategy, as a function of the word
count and of the two scalars it reads from the sub-analyses
(complexity.overallComplexity and sentiment.intensity). -/
noncomputable def determineScalingStrategy (wordCount : ℕ)
    (overallComplexity emotionIntensity : ℝ) : ScalingStrategy :=
  let threshold := selectThreshold wordCount
  let baseNodeCount :=
    calculateBaseNodeCount wordCount overallComplexity emotionIntensity threshold.strategy
  let particleCount := calculateParticleCount baseNodeCount threshold.strategy
  let compressionLevel := calculateCompressionLevel wordCount baseNodeCount
  { type := threshold.strategy
    multiplier := threshold.multiplier
    nodeCount := baseNodeCount
    particleCount := particleCount
    compressionLevel := compressionLevel }

/-- ToInt32: the JS & and << coercion of a double to a signed 32-bit
integer (exact on the integer values hashText produces). -/
def toInt32 (n : ℤ) : ℤ := (n + 2147483648) % 4294967296 - 2147483648

/-- One iteration of hashText: hash = ((hash << 5) - hash) + charCode,
then hash = hash & hash (the 32-bit truncation). -/
def hashStep (h : ℤ) (c : ℕ) : ℤ := toInt32 (toInt32 (h * 32) - h + (c : ℤ))

/-- TextAnalyzer.hashText, as the 32-bit integer before the final
toString(36) rendering; toString(36) is injective on integers, so keying
the cache Map by this integer and by the rendered string agree. -/
def hashText (text : String) : ℤ :=
  text.data.foldl (fun h c => hashStep h c.toNat) 0

/-- The cache-lookup path of TextAnalyzer.analyze: the cache is keyed by
hashText(text) only, so the stored result is returned whenever the key
matches, whatever text produced it. -/
def analyzeCached {α : Type} (cache : List (ℤ × α)) (text : String)
    (compute : String → α) : α × List (ℤ × α) :=
  let key := hashText text
  match cache.lookup key with
  | some cached => (cached, cache)
  | none =>
    let result := compute text
    (result, (key, result) :: cache)

end TextAnalyzer

/-!
NodeSystem (src/rendering/NodeSystem.ts): node generation, synthetic
padding, connection derivation.  Math.random() is replaced by the
injected deterministic streams of an Rng record (see the header note);
THREE.Vector3 positions are rational triples, THREE.Color values are
their hex numbers.
-/

namespace Types

/-- The 7 concept categories (ConceptCategory in src/types). -/
inductive ConceptCategory
  | emotion | time | people | places | actions | abstract | objects
  deriving DecidableEq, Repr

/-- A Concept as consumed by NodeSystem. -/
structure Concept where
  word : String
  category : ConceptCategory
  relevance : ℚ
  frequency : ℕ
  positions : List ℕ
  connections : List String
  deriving DecidableEq, Repr

/-- Node types (NodeType in src/types). -/
inductive NodeType
  | emotion | concept | synthetic | temporal | social
  deriving DecidableEq, Repr

/-- The node data payload. -/
structure NodeData where
  word : String
  concept : Option Concept
  emotion : Option Emotion
  relevance : ℚ
  layer : ℕ
  deriving DecidableEq, Repr

/-- A visualization Node. -/
structure Node where
  id : String
  position : ℚ × ℚ × ℚ
  activation : ℚ
  targetActivation : ℚ
  color : ℕ
  size : ℚ
  type : NodeType
  connections : List String
  synthetic : Bool
  lifetime : ℚ
  importance : ℚ
  data : NodeData
  deriving DecidableEq, Repr

/-- Semantic-graph edge relationship kinds. -/
inductive RelationshipKind
  | semantic | emotional | temporal | contextual
  deriving DecidableEq, Repr

/-- A semantic-graph edge as consumed by generateConnections. -/
structure Edge where
  source : String
  target : String
  weight : ℚ
  relationship : RelationshipKind
  deriving DecidableEq, Repr

/-- Connection types produced by generateConnections. -/
inductive ConnectionType
  | semantic | emotional
  deriving DecidableEq, Repr

/-- A Connection between two generated nodes. -/
structure Connection where
  id : String
  source : String
  target : String
  weight : ℚ
  type : ConnectionType
  active : Bool
  flow : ℚ
  color : ℕ
  deriving DecidableEq, Repr

end Types

open Types

namespace NodeSystem

/-- The JS names of the six emotions (used in node ids and payloads). -/
def emotionName : Emotion → String
  | Emotion.joy => "joy"
  | Emotion.sadness => "sadness"
  | Emotion.anger => "anger"
  | Emotion.fear => "fear"
  | Emotion.surprise => "surprise"
  | Emotion.anticipation => "anticipation"

/-- NodeSystem.getColorForConcept's category colour table. -/
def getColorForConcept (c : Concept) : ℕ :=
  match c.category with
  | ConceptCategory.emotion => 0xff6b6b
  | ConceptCategory.time => 0xf39c12
  | ConceptCategory.people => 0xe74c3c
  | ConceptCategory.places => 0x27ae60
  | ConceptCategory.actions => 0x3498db
  | ConceptCategory.abstract => 0x9b59b6
  | ConceptCategory.objects => 0x34495e

/-- NodeSystem.getColorForEmotion. -/
def getColorForEmotion : Emotion → ℕ
  | Emotion.joy => 0xf1c40f
  | Emotion.sadness => 0x3498db
  | Emotion.anger => 0xe74c3c
  | Emotion.fear => 0x8e44ad
  | Emotion.surprise => 0xe67e22
  | Emotion.anticipation => 0x2ecc71

/-- NodeSystem.getSizeForImportance: 0.5 + importance * 1.5. -/
def getSizeForImportance (importance : ℚ) : ℚ := 0.5 + importance * 1.5

/-- NodeSystem.getLayerForCategory. -/
def getLayerForCategory : ConceptCategory → ℕ
  | ConceptCategory.emotion => 0
  | ConceptCategory.people => 0
  | ConceptCategory.time => 1
  | ConceptCategory.actions => 1
  | ConceptCategory.places => 1
  | ConceptCategory.abstract => 2
  | ConceptCategory.objects => 2

/-- NodeSystem.getColorForConnectionType. -/
def getColorForConnectionType : RelationshipKind → ℕ
  | RelationshipKind.semantic => 0x4ecdc4
  | RelationshipKind.emotional => 0xff6b6b
  | RelationshipKind.temporal => 0xf39c12
  | RelationshipKind.contextual => 0x95a5a6

/-- The four-way split of NodeSystem.calculateNodeDistribution.  (The
Math.floor of an IEEE product like totalNodes * 0.3 can differ from the
exact rational floor by one; none of the proved properties depend on the
exact split.) -/
structure NodeDistribution where
  primary : ℕ
  secondary : ℕ
  tertiary : ℕ
  environmental : ℕ
  deriving DecidableEq, Repr

def calculateNodeDistribution (totalNodes : ℕ) : NodeDistribution :=
  { primary := (⌊(totalNodes : ℚ) * 0.3⌋).toNat
    secondary := (⌊(totalNodes : ℚ) * 0.4⌋).toNat
    tertiary := (⌊(totalNodes : ℚ) * 0.2⌋).toNat
    environmental := (⌊(totalNodes : ℚ) * 0.1⌋).toNat }

/-- Deterministic stand-ins for the Math.random() streams consumed during
node generation (id suffixes and cosmetic numeric attributes). -/
structure Rng where
  ridPrimary : ℕ → String
  actPrimary : ℕ → ℚ
  ridEmotion : String
  ridSecondary : ℕ → String
  actSecondary : ℕ → ℚ
  ridSynth : ℕ → String
  synthAct : ℕ → ℚ
  synthTarget : ℕ → ℚ
  synthImportance : ℕ → ℚ
  synthRelevance : ℕ → ℚ

/-- NodeSystem.createNodeFromConcept; rsuffix and r model the
Math.random() draws for the id suffix and the initial activation. -/
def createNodeFromConcept (concept : Concept) (nodeType : NodeType) (importance : ℚ)
    (rsuffix : String) (r : ℚ) : Node :=
  { id := "concept_" ++ concept.word ++ "_" ++ rsuffix
    position := (0, 0, 0)
    activation := r * 0.5 + 0.3
    targetActivation := concept.relevance
    color := getColorForConcept concept
    size := getSizeForImportance importance
    type := nodeType
    connections := []
    synthetic := false
    lifetime := 0
    importance := importance
    data := { word := concept.word
              concept := some concept
              emotion := none
              relevance := concept.relevance
              layer := getLayerForCategory concept.category } }

/-- NodeSystem.createEmotionNode. -/
def createEmotionNode (sentiment : SentimentAnalyzer.SentimentAnalysis) (importance : ℚ)
    (rsuffix : String) : Node :=
  { id := "emotion_" ++ emotionName sentiment.dominant.emotion ++ "_" ++ rsuffix
    position := (0, 0, 0)
    activation := sentiment.intensity
    targetActivation := sentiment.dominant.score
    color := getColorForEmotion sentiment.dominant.emotion
    size := min (getSizeForImportance importance * 1.2) 2.0
    type := NodeType.emotion
    connections := []
    synthetic := false
    lifetime := 0
    importance := importance
    data := { word := emotionName sentiment.dominant.emotion
              concept := none
              emotion := some sentiment.dominant.emotion
              relevance := sentiment.dominant.score
              layer := 0 } }

/-- NodeSystem.generateSyntheticNodes: the i-indexed filler-node loop. -/
def generateSyntheticNodes (count : ℕ) (rng : Rng) : List Node :=
  (List.range count).map (fun i =>
    { id := "synthetic_" ++ Nat.repr i ++ "_" ++ rng.ridSynth i
      position := (0, 0, 0)
      activation := rng.synthAct i * 0.3 + 0.1
      targetActivation := rng.synthTarget i * 0.4 + 0.1
      color := 0x95a5a6
      size := getSizeForImportance 0.3
      type := NodeType.synthetic
      connections := []
      synthetic := true
      lifetime := 0
      importance := 0.2 + rng.synthImportance i * 0.3
      data := { word := "synthetic_" ++ Nat.repr i
                concept := none
                emotion := none
                relevance := 0.1 + rng.synthRelevance i * 0.2
                layer := 2 } })

/-- NodeSystem.generateNodes: primary nodes from the top concepts by
relevance, one emotion node when dominant confidence exceeds 0.3,
secondary nodes from the next relevance slice, synthetic filler up to the
target, then slice(0, target) to enforce the exact count. -/
def generateNodes (concepts : List Concept) (sentiment : SentimentAnalyzer.SentimentAnalysis)
    (targetNodeCount : ℕ) (rng : Rng) : List Node :=
  let distribution := calculateNodeDistribution targetNodeCount
  let sorted := concepts.insertionSort (fun a b => a.relevance ≥ b.relevance)
  let primaryConcepts := sorted.take distribution.primary
  let primaryNodes := primaryConcepts.mapIdx (fun index concept =>
    createNodeFromConcept concept NodeType.concept
      (1.0 - ((index : ℚ) / primaryConcepts.length) * 0.3)
      (rng.ridPrimary index) (rng.actPrimary index))
  let emotionNodes :=
    if sentiment.dominant.confidence > 0.3 then [createEmotionNode sentiment 0.9 rng.ridEmotion]
    else []
  let secondaryConcepts := (sorted.drop distribution.primary).take distribution.secondary
  let secondaryNodes := secondaryConcepts.mapIdx (fun index concept =>
    createNodeFromConcept concept NodeType.concept
      (0.7 - ((index : ℚ) / secondaryConcepts.length) * 0.2)
      (rng.ridSecondary index) (rng.actSecondary index))
  let nodes := primaryNodes ++ emotionNodes ++ secondaryNodes
  let remainingCount : ℤ := (targetNodeCount : ℤ) - nodes.length
  let nodes :=
    if remainingCount > 0 then nodes ++ generateSyntheticNodes remainingCount.toNat rng
    else nodes
  nodes.take targetNodeCount

/-- NodeSystem.generateConnections: one Connection per semantic-graph
edge whose source and target words both resolve (via Array.find) to a
generated node; dropped otherwise. -/
def generateConnections (edges : List Edge) (nodes : List Node) : List Connection :=
  edges.filterMap (fun edge =>
    match nodes.find? (fun n => n.data.word == edge.source),
          nodes.find? (fun n => n.data.word == edge.target) with
    | some sourceNode, some targetNode =>
      some { id := "conn_" ++ sourceNode.id ++ "_" ++ targetNode.id
             source := sourceNode.id
             target := targetNode.id
             weight := edge.weight
             type := if edge.relationship = RelationshipKind.semantic then
                       ConnectionType.semantic
                     else ConnectionType.emotional
             active := decide (edge.weight > (0.3 : ℚ))
             flow := edge.weight
             color := getColorForConnectionType edge.relationship }
    | _, _ => none)

end NodeSystem

/-!
Concrete data used by witnesses, and the reducibility setup that lets
kernel-checked decision procedures evaluate the rational arithmetic.
-/

set_option allowUnsafeReducibility true

attribute [local semireducible] Rat.ofScientific Rat.add Rat.mul Rat.sub Rat.div Rat.inv Rat.blt

def sampleConceptA : Concept :=
  ⟨"alpha", ConceptCategory.objects, 1/2, 1, [0], []⟩

def sampleConceptB : Concept :=
  ⟨"beta", ConceptCategory.people, 1/4, 1, [1], []⟩

def sampleNodeA : Node :=
  NodeSystem.createNodeFromConcept sampleConceptA NodeType.concept 1 "r0" 0

def sampleNodeB : Node :=
  NodeSystem.createNodeFromConcept sampleConceptB NodeType.concept (7/10) "r1" 0

def sampleEdge : Edge := ⟨"alpha", "beta", 1/2, RelationshipKind.semantic⟩

def sampleConnection : Connection :=
  ⟨"conn_" ++ sampleNodeA.id ++ "_" ++ sampleNodeB.id, sampleNodeA.id, sampleNodeB.id,
   1/2, ConnectionType.semantic, true, 1/2, 0x4ecdc4⟩

/-- The loop invariant of the calculateEmotionScores scan: the current
intensifier stays in [0, 2], every accumulated per-emotion sum is at most
8/5 of the emotional-word count, and the sums are all zero while no
emotional word has been seen. -/
def ScanInv (s : SentimentAnalyzer.ScanState) : Prop :=
  0 ≤ s.intens ∧ s.intens ≤ 2 ∧
  (∀ e, s.scores e ≤ 8/5 * s.total) ∧
  (s.total = 0 → ∀ e, s.scores e = 0)

lemma intensifier_val_bounds {w : String} {m : ℚ}
    (h : SentimentAnalyzer.intensifierLookup w = some m) : 0 ≤ m ∧ m ≤ 2 := by
  unfold SentimentAnalyzer.intensifierLookup at h
  rw [List.lookup_eq_some_iff] at h
  obtain ⟨l₁, l₂, heq, -⟩ := h
  have hmem : (w, m) ∈ SentimentAnalyzer.intensifierPairs := by
    rw [heq]; simp
  have hall : ∀ p ∈ SentimentAnalyzer.intensifierPairs, 0 ≤ p.2 ∧ p.2 ≤ 2 := by decide
  exact hall _ hmem

lemma lexicon_val_bounds {w : String} {e : Emotion} {b : ℚ}
    (h : SentimentAnalyzer.emotionLexicon w = some (e, b)) : 0 ≤ b ∧ b ≤ 8/10 := by
  unfold SentimentAnalyzer.emotionLexicon at h
  split_ifs at h
  all_goals first
    | exact Option.noConfusion h
    | (injection h with h2; cases h2; norm_num)

lemma scanStep_inv {s : SentimentAnalyzer.ScanState} (hs : ScanInv s) (w : String) :
    ScanInv (SentimentAnalyzer.scanStep s w) := by
  obtain ⟨h0, h2, hub, hz⟩ := hs
  unfold SentimentAnalyzer.scanStep
  by_cases hneg : w ∈ SentimentAnalyzer.negationWords
  · rw [if_pos hneg]
    exact ⟨h0, h2, hub, hz⟩
  rw [if_neg hneg]
  cases hint : SentimentAnalyzer.intensifierLookup w with
  | some m =>
    simp only [hint]
    exact ⟨(intensifier_val_bounds hint).1, (intensifier_val_bounds hint).2, hub, hz⟩
  | none =>
    simp only [hint]
    cases hlex : SentimentAnalyzer.emotionLexicon w with
    | none =>
      simp only [hlex]
      exact ⟨by norm_num, by norm_num, hub, hz⟩
    | some p =>
      obtain ⟨e, b⟩ := p
      simp only [hlex]
      obtain ⟨hb0, hb8⟩ := lexicon_val_bounds hlex
      have hcontrib :
          (if s.negation = true then b * s.intens * (-0.5) else b * s.intens) ≤ 8/5 := by
        split_ifs
        · have hnn : 0 ≤ b * s.intens := mul_nonneg hb0 h0
          nlinarith
        · calc b * s.intens ≤ (8/10) * 2 := mul_le_mul hb8 h2 h0 (by norm_num)
            _ ≤ 8/5 := by norm_num
      refine ⟨by norm_num, by norm_num, ?_, ?_⟩
      · intro x
        show (bumpScore s.scores e _) x ≤ _
        simp only [bumpScore]
        have htot : (0:ℚ) ≤ s.total := by positivity
        by_cases hx : x = e
        · rw [if_pos hx, hx]
          have hue := hub e
          push_cast
          linarith
        · rw [if_neg hx]
          have hux := hub x
          push_cast
          linarith
      · intro habs
        simp at habs

lemma foldl_scan_inv (ws : List String) :
    ∀ s, ScanInv s → ScanInv (ws.foldl SentimentAnalyzer.scanStep s) := by
  induction ws with
  | nil => exact fun _ h => h
  | cons w ws ih => exact fun s h => ih _ (scanStep_inv h w)

lemma calculateEmotionScores_bounds (words : List String) (e : Emotion) :
    0 ≤ SentimentAnalyzer.calculateEmotionScores words e ∧
    SentimentAnalyzer.calculateEmotionScores words e ≤ 8/5 := by
  unfold SentimentAnalyzer.calculateEmotionScores
  have hinit : ScanInv SentimentAnalyzer.initState := by
    refine ⟨by norm_num [SentimentAnalyzer.initState], by norm_num [SentimentAnalyzer.initState],
      ?_, fun _ e => rfl⟩
    intro x
    simp [SentimentAnalyzer.initState]
  have hinv := foldl_scan_inv words SentimentAnalyzer.initState hinit
  set st := words.foldl SentimentAnalyzer.scanStep SentimentAnalyzer.initState with hst
  split_ifs with htot
  · constructor
    · exact le_max_left 0 _
    · apply max_le (by norm_num)
      have hpos : (0:ℚ) < st.total := by exact_mod_cast htot
      rw [div_le_iff₀ hpos]
      have := hinv.2.2.1 e
      linarith
  · have hzero : st.total = 0 := by omega
    rw [hinv.2.2.2 hzero e]
    norm_num

lemma applyEmojiInfluence_bounds (scores : EmotionScores) (influence : ℚ)
    (h : ∀ x, 0 ≤ scores x ∧ scores x ≤ 8/5) (e : Emotion) :
    0 ≤ SentimentAnalyzer.applyEmojiInfluence scores influence e ∧
    SentimentAnalyzer.applyEmojiInfluence scores influence e ≤ 8/5 := by
  unfold SentimentAnalyzer.applyEmojiInfluence
  split_ifs with hpos hneg
  · cases e with
    | joy =>
      refine ⟨le_min (by norm_num)
        (add_nonneg (h Emotion.joy).1 (mul_nonneg hpos.le (by norm_num))), ?_⟩
      exact (min_le_left _ _).trans (by norm_num)
    | anticipation =>
      refine ⟨le_min (by norm_num)
        (add_nonneg (h Emotion.anticipation).1 (mul_nonneg hpos.le (by norm_num))), ?_⟩
      exact (min_le_left _ _).trans (by norm_num)
    | sadness => exact h _
    | anger => exact h _
    | fear => exact h _
    | surprise => exact h _
  · cases e with
    | sadness =>
      refine ⟨le_min (by norm_num)
        (add_nonneg (h Emotion.sadness).1 (mul_nonneg (abs_nonneg influence) (by norm_num))), ?_⟩
      exact (min_le_left _ _).trans (by norm_num)
    | fear =>
      refine ⟨le_min (by norm_num)
        (add_nonneg (h Emotion.fear).1 (mul_nonneg (abs_nonneg influence) (by norm_num))), ?_⟩
      exact (min_le_left _ _).trans (by norm_num)
    | joy => exact h _
    | anger => exact h _
    | surprise => exact h _
    | anticipation => exact h _
  · exact h e

lemma analyze_scores_eq (text : String) (influence : ℚ) :
    (SentimentAnalyzer.analyze text influence).scores =
      if influence > 0 then
        SentimentAnalyzer.applyEmojiInfluence
          (SentimentAnalyzer.calculateEmotionScores (SentimentAnalyzer.tokenizeText text))
          influence
      else
        SentimentAnalyzer.calculateEmotionScores (SentimentAnalyzer.tokenizeText text) := by
  unfold SentimentAnalyzer.analyze
  split_ifs with h <;> simp [h]

/-- C4, corrected: every one of the six emotion scores returned by
SentimentAnalyzer.analyze is nonnegative and at most 8/5 (the maximum
lexicon intensity 0.8 times the maximum intensifier 2.0); the claimed
upper bound 1 is false (see the counterexample). -/
theorem emotion_scores_within_zero_and_eight_fifths (text : String) (influence : ℚ)
    (e : Emotion) :
    0 ≤ (SentimentAnalyzer.analyze text influence).scores e ∧
    (SentimentAnalyzer.analyze text influence).scores e ≤ 8/5 := by
  rw [analyze_scores_eq]
  split_ifs with hpos
  · exact applyEmojiInfluence_bounds _ influence
      (fun x => calculateEmotionScores_bounds (SentimentAnalyzer.tokenizeText text) x) e
  · exact calculateEmotionScores_bounds (SentimentAnalyzer.tokenizeText text) e

/-- C4, counterexample: on the input "extremely happy" (with zero emoji
influence) the joy score returned by analyze is 1.6, which is not ≤ 1. -/
theorem emotion_score_exceeds_one_counterexample :
    ¬ ((SentimentAnalyzer.analyze "extremely happy" 0).scores Emotion.joy ≤ 1) := by decide

/-- C4 witness: the amended bounds instantiated at a concrete input. -/
theorem emotion_scores_within_zero_and_eight_fifths_witness :
    0 ≤ (SentimentAnalyzer.analyze "extremely happy" 0).scores Emotion.joy ∧
    (SentimentAnalyzer.analyze "extremely happy" 0).scores Emotion.joy ≤ 8/5 :=
  emotion_scores_within_zero_and_eight_fifths "extremely happy" 0 Emotion.joy

/-- C8: three occurrences of "not happy" produce a strictly lower joy
score than three occurrences of "happy" alone, because each pending
negation multiplies the emotional contribution by -0.5. -/
theorem negated_emotional_word_lowers_joy :
    (SentimentAnalyzer.analyze "not happy not happy not happy" 0).scores Emotion.joy <
    (SentimentAnalyzer.analyze "happy happy happy" 0).scores Emotion.joy := by decide

/-- C9: with the strictly-positive guard in analyze, a negative emoji
influence is never applied: analyzing "sad" with influence -1 returns the
same sadness score 0.8 (not min(1, 0.8 + 0.3) = 1) and the same fear
score as analyzing with influence 0. -/
theorem negative_emoji_influence_ignored :
    (SentimentAnalyzer.analyze "sad" (-1)).scores Emotion.sadness = 4/5 ∧
    (SentimentAnalyzer.analyze "sad" 0).scores Emotion.sadness = 4/5 ∧
    (SentimentAnalyzer.analyze "sad" (-1)).scores Emotion.fear =
      (SentimentAnalyzer.analyze "sad" 0).scores Emotion.fear := by decide

/-- C10: hashText is not injective ("Aa" and "BB" hash to 2112 alike), so
an analyze call for "BB" against a cache populated by "Aa" returns the
result computed for "Aa". -/
theorem hashText_collision_cache_confusion :
    TextAnalyzer.hashText "Aa" = TextAnalyzer.hashText "BB" ∧
    "Aa" ≠ "BB" ∧
    ∀ compute : String → ℚ,
      (TextAnalyzer.analyzeCached
          ((TextAnalyzer.analyzeCached ([] : List (ℤ × ℚ)) "Aa" compute).2) "BB" compute).1 =
        compute "Aa" := by
  refine ⟨by decide, by decide, fun compute => ?_⟩
  rfl

/-- C2: on the empty input the tokenizer yields no words and the three
guarded complexity sub-scores are 0, but calculateEmotionalComplexity
has no empty-list guard: it divides 0/0, yielding NaN, which propagates
through overallComplexity and the node-count formula, so the computed
node count is NaN rather than the claimed floor of 8. -/
theorem empty_input_node_count_is_NaN :
    TextAnalyzer.tokenizeText "" = [] ∧
    (ComplexityAnalyzer.analyze "").vocabularyDiversity = 0 ∧
    (ComplexityAnalyzer.analyze "").sentenceComplexity = 0 ∧
    (ComplexityAnalyzer.analyze "").conceptDensity = 0 ∧
    (ComplexityAnalyzer.analyze "").emotionalComplexity = none ∧
    (ComplexityAnalyzer.analyze "").overallComplexity = none ∧
    (SentimentAnalyzer.analyze "" 0).intensity = 0 ∧
    (TextAnalyzer.selectThreshold 0).strategy = ScalingType.micro_boost ∧
    TextAnalyzer.jsCalculateBaseNodeCount 0
        (((ComplexityAnalyzer.analyze "").overallComplexity).map (fun q => (q : ℝ)))
        (((SentimentAnalyzer.analyze "" 0).intensity : ℚ) : ℝ)
        (TextAnalyzer.selectThreshold 0).strategy = none := by
  refine ⟨by decide, by decide, by decide, by decide, by decide, by decide, by decide,
    by decide, ?_⟩
  have h : (ComplexityAnalyzer.analyze "").overallComplexity = none := by decide
  rw [h]
  rfl

/-- C5, counterexample: at word count 12501 (beyond the table's top
bound) the threshold loop matches no tier and keeps its initialiser, so
the selected strategy is micro_boost (multiplier 3.0), not the claimed
epic_maximum (multiplier 0.25). -/
theorem beyond_table_tier_counterexample :
    (TextAnalyzer.selectThreshold 12501).strategy = ScalingType.micro_boost ∧
    (TextAnalyzer.selectThreshold 12501).multiplier = 3 ∧
    ScalingType.micro_boost ≠ ScalingType.epic_maximum := by decide

/-- C5, amended: for every word count beyond the table's top bound of
12500 the resolver still runs, but it falls back to the loop initialiser
MICRO_TINY, producing the micro_boost strategy with multiplier 3.0 (the
highest-multiplier tier, not the lowest). -/
theorem beyond_table_falls_back_to_micro_boost (W : ℕ) (c e : ℝ) (hW : 12500 < W) :
    (TextAnalyzer.determineScalingStrategy W c e).type = ScalingType.micro_boost ∧
    (TextAnalyzer.determineScalingStrategy W c e).multiplier = 3 := by
  have hmax : ∀ x ∈ SCALING_THRESHOLDS, x.max ≤ 12500 := by decide
  have hsel : TextAnalyzer.selectThreshold W = MICRO_TINY := by
    unfold TextAnalyzer.selectThreshold
    rw [List.find?_eq_none.mpr]
    · rfl
    · intro x hx
      simp only [Bool.and_eq_true, decide_eq_true_eq, not_and]
      intro _ h2
      exact absurd (le_trans h2 (hmax x hx)) (by omega)
  constructor
  · show (TextAnalyzer.selectThreshold W).strategy = ScalingType.micro_boost
    rw [hsel]
    rfl
  · show (TextAnalyzer.selectThreshold W).multiplier = 3
    rw [hsel]
    norm_num [MICRO_TINY]

/-- C5 witness: the amended fallback instantiated at word count 12501. -/
theorem beyond_table_falls_back_to_micro_boost_witness :
    12500 < 12501 ∧
    (TextAnalyzer.determineScalingStrategy 12501 0 0).type = ScalingType.micro_boost :=
  ⟨by norm_num, (beyond_table_falls_back_to_micro_boost 12501 0 0 (by norm_num)).1⟩

/-- C3: the node list generated by NodeSystem.generateNodes has exactly
the target length for every input: synthetic nodes pad any shortfall and
slice(0, target) truncates any excess. -/
theorem generateNodes_length_eq_target (concepts : List Concept)
    (sentiment : SentimentAnalyzer.SentimentAnalysis) (targetNodeCount : ℕ)
    (rng : NodeSystem.Rng) :
    (NodeSystem.generateNodes concepts sentiment targetNodeCount rng).length =
      targetNodeCount := by
  have pad_take_length : ∀ (l : List Node) (T : ℕ) (r : NodeSystem.Rng),
      ((if ((T : ℤ) - l.length) > 0 then
          l ++ NodeSystem.generateSyntheticNodes ((T : ℤ) - l.length).toNat r
        else l).take T).length = T := by
    intro l T r
    have hsynth : (NodeSystem.generateSyntheticNodes ((T : ℤ) - l.length).toNat r).length =
        ((T : ℤ) - l.length).toNat := by
      simp [NodeSystem.generateSyntheticNodes]
    split_ifs with h
    · rw [List.length_take, List.length_append, hsynth]
      exact min_eq_left (by omega)
    · rw [List.length_take]
      exact min_eq_left (by omega)
  simp only [NodeSystem.generateNodes]
  exact pad_take_length _ targetNodeCount rng

/-- C6: every connection produced by NodeSystem.generateConnections
references a source node id and a target node id of nodes present in the
node list it was generated from. -/
theorem generateConnections_endpoints_exist (edges : List Edge) (nodes : List Node)
    (conn : Connection) (hconn : conn ∈ NodeSystem.generateConnections edges nodes) :
    (∃ n ∈ nodes, n.id = conn.source) ∧ ∃ n ∈ nodes, n.id = conn.target := by
  unfold NodeSystem.generateConnections at hconn
  rw [List.mem_filterMap] at hconn
  obtain ⟨edge, -, heq⟩ := hconn
  cases hs : nodes.find? (fun n => n.data.word == edge.source) with
  | none =>
    rw [hs] at heq
    cases ht : nodes.find? (fun n => n.data.word == edge.target) with
    | none => rw [ht] at heq; exact Option.noConfusion heq
    | some tn => rw [ht] at heq; exact Option.noConfusion heq
  | some sn =>
    rw [hs] at heq
    cases ht : nodes.find? (fun n => n.data.word == edge.target) with
    | none => rw [ht] at heq; exact Option.noConfusion heq
    | some tn =>
      rw [ht] at heq
      injection heq with heq2
      constructor
      · exact ⟨sn, List.mem_of_find?_eq_some hs, by rw [← heq2]⟩
      · exact ⟨tn, List.mem_of_find?_eq_some ht, by rw [← heq2]⟩

/-- C6 witness: a concrete edge between two concrete generated nodes. -/
theorem generateConnections_endpoints_exist_witness :
    (∃ n ∈ [sampleNodeA, sampleNodeB], n.id = sampleConnection.source) ∧
    ∃ n ∈ [sampleNodeA, sampleNodeB], n.id = sampleConnection.target :=
  generateConnections_endpoints_exist [sampleEdge] [sampleNodeA, sampleNodeB]
    sampleConnection (by decide)

lemma strategyMultipliers_agree :
    ∀ t ∈ SCALING_THRESHOLDS, TextAnalyzer.strategyMultipliers t.strategy = t.multiplier := by
  decide

lemma selectThreshold_mem (W : ℕ) : TextAnalyzer.selectThreshold W ∈ SCALING_THRESHOLDS := by
  unfold TextAnalyzer.selectThreshold
  cases h : SCALING_THRESHOLDS.find?
      (fun t => decide (t.min ≤ W) && decide (W ≤ t.max)) with
  | none =>
    exact (by decide : MICRO_TINY ∈ SCALING_THRESHOLDS)
  | some t =>
    exact List.mem_of_find?_eq_some h

/-- C1: the resolver's node count is exactly
floor(clamp(log2(W+1)*8 * (1+1.5c) * (0.5+1.5e) * multiplier, 8, 700))
for the selected tier's multiplier, and for any word count up to 100000
(indeed any) the node count lies in [8, 700] and the particle count in
[500, 35000]. -/
theorem nodeCount_formula_and_bounds (W : ℕ) (c e : ℝ) (hW : W ≤ 100000)
    (hc0 : 0 ≤ c) (hc1 : c ≤ 1) (he0 : 0 ≤ e) (he1 : e ≤ 1) :
    (TextAnalyzer.determineScalingStrategy W c e).nodeCount =
      ⌊max 8 (min 700 (Real.logb 2 (W + 1) * 8 * (1 + c * 1.5) * (0.5 + e * 1.5) *
        (((TextAnalyzer.determineScalingStrategy W c e).multiplier : ℚ) : ℝ)))⌋ ∧
    8 ≤ (TextAnalyzer.determineScalingStrategy W c e).nodeCount ∧
    (TextAnalyzer.determineScalingStrategy W c e).nodeCount ≤ 700 ∧
    500 ≤ (TextAnalyzer.determineScalingStrategy W c e).particleCount ∧
    (TextAnalyzer.determineScalingStrategy W c e).particleCount ≤ 35000 := by
  have hmult : TextAnalyzer.strategyMultipliers (TextAnalyzer.selectThreshold W).strategy =
      (TextAnalyzer.selectThreshold W).multiplier :=
    strategyMultipliers_agree _ (selectThreshold_mem W)
  have hproj_nc : (TextAnalyzer.determineScalingStrategy W c e).nodeCount =
      TextAnalyzer.calculateBaseNodeCount W c e (TextAnalyzer.selectThreshold W).strategy := rfl
  have hproj_mult : (TextAnalyzer.determineScalingStrategy W c e).multiplier =
      (TextAnalyzer.selectThreshold W).multiplier := rfl
  have hproj_pc : (TextAnalyzer.determineScalingStrategy W c e).particleCount =
      TextAnalyzer.calculateParticleCount
        (TextAnalyzer.calculateBaseNodeCount W c e (TextAnalyzer.selectThreshold W).strategy)
        (TextAnalyzer.selectThreshold W).strategy := rfl
  refine ⟨?_, ?_, ?_, ?_, ?_⟩
  · rw [hproj_nc, hproj_mult, ← hmult]
    rfl
  · rw [hproj_nc]
    unfold TextAnalyzer.calculateBaseNodeCount
    apply Int.le_floor.mpr
    push_cast
    exact le_max_left _ _
  · rw [hproj_nc]
    unfold TextAnalyzer.calculateBaseNodeCount
    set x := TextAnalyzer.rawNodeCount W c e (TextAnalyzer.selectThreshold W).strategy with hx
    have h700 : max (8:ℝ) (min 700 x) ≤ 700 := max_le (by norm_num) (min_le_left _ _)
    have hfl : ⌊max (8:ℝ) (min 700 x)⌋ ≤ ⌊(700:ℝ)⌋ := Int.floor_mono h700
    have h700i : ⌊(700:ℝ)⌋ = 700 := by exact_mod_cast Int.floor_intCast (700 : ℤ)
    exact le_trans hfl (le_of_eq h700i)
  · rw [hproj_pc]
    unfold TextAnalyzer.calculateParticleCount
    exact le_min (by norm_num) (le_max_left _ _)
  · rw [hproj_pc]
    unfold TextAnalyzer.calculateParticleCount
    exact min_le_left _ _

/-- C1 witness: the bounds instantiated at word count 3 with zero
complexity and zero emotion intensity. -/
theorem nodeCount_formula_and_bounds_witness :
    8 ≤ (TextAnalyzer.determineScalingStrategy 3 0 0).nodeCount ∧
    500 ≤ (TextAnalyzer.determineScalingStrategy 3 0 0).particleCount :=
  ⟨(nodeCount_formula_and_bounds 3 0 0 (by norm_num) le_rfl (by norm_num) le_rfl
      (by norm_num)).2.1,
   (nodeCount_formula_and_bounds 3 0 0 (by norm_num) le_rfl (by norm_num) le_rfl
      (by norm_num)).2.2.2.1⟩

/-- C7: with complexity, emotion intensity and tier (hence multiplier)
fixed, the pre-clamp node-count product is monotone in the word count
within the tier's range. -/
theorem rawNodeCount_monotone_in_wordCount (t : Threshold) (ht : t ∈ SCALING_THRESHOLDS)
    (W1 W2 : ℕ) (c e : ℝ) (hlo : t.min ≤ W1) (h12 : W1 ≤ W2) (hhi : W2 ≤ t.max)
    (hc0 : 0 ≤ c) (hc1 : c ≤ 1) (he0 : 0 ≤ e) (he1 : e ≤ 1) :
    TextAnalyzer.rawNodeCount W1 c e t.strategy ≤
      TextAnalyzer.rawNodeCount W2 c e t.strategy := by
  unfold TextAnalyzer.rawNodeCount
  have htables : ∀ x ∈ SCALING_THRESHOLDS, (0:ℚ) ≤ x.multiplier := by decide
  have hmul : (0:ℝ) ≤ ((TextAnalyzer.strategyMultipliers t.strategy : ℚ) : ℝ) := by
    rw [strategyMultipliers_agree t ht]
    exact_mod_cast htables t ht
  have hlog : Real.logb 2 ((W1:ℝ) + 1) ≤ Real.logb 2 ((W2:ℝ) + 1) := by
    apply Real.logb_le_logb_of_le (by norm_num : (1:ℝ) < 2)
    · positivity
    · have h : (W1:ℝ) ≤ W2 := by exact_mod_cast h12
      linarith
  have hA : (0:ℝ) ≤ 1 + c * 1.5 := by nlinarith
  have hB : (0:ℝ) ≤ 0.5 + e * 1.5 := by nlinarith
  apply mul_le_mul_of_nonneg_right _ hmul
  apply mul_le_mul_of_nonneg_right _ hB
  apply mul_le_mul_of_nonneg_right _ hA
  linarith

/-- C7 witness: monotonicity instantiated inside the micro_boost tier. -/
theorem rawNodeCount_monotone_in_wordCount_witness :
    TextAnalyzer.rawNodeCount 1 0 0 MICRO_TINY.strategy ≤
      TextAnalyzer.rawNodeCount 2 0 0 MICRO_TINY.strategy :=
  rawNodeCount_monotone_in_wordCount MICRO_TINY (by decide) 1 2 0 0 (by decide) (by norm_num)
    (by decide) le_rfl (by norm_num) le_rfl (by norm_num)
